import Mathlib

/-!
Verification of the loki-producer ingest gateway (Go) against its
natural-language specification, via a shallow embedding in Lean 4.

The embedding follows the Go sources:
  server package (server.go): handlePush, Reload, buildRateLimitersLocked,
    readyHandler / isHealthy, healthLoop, classifyKafkaError,
    classifyContentType
  config package (config.go): Config, Validate, normalizeBalancer,
    ImmutableSubset, ImmutableChanged, RuntimeView, LoadFromFile / Parse
  metrics package (metrics.go): TrackResult counter triple
  ratelimit.go: perTenantLimiter

Modelling conventions:
  Go strings and byte slices are Lean Strings (byte fidelity becomes string
  equality); Go float64 values are modelled as rationals; Go time.Duration
  and int64 values are Lean Int; Go uint64 counters are Nat, with uint64
  subtraction modelled exactly as arithmetic mod 2^64 where the source
  subtracts; effects the claims are about (produced Kafka message, counter
  triple increments, rate-limited scope, consecutive-error streak) are
  returned explicitly from the modelled handler; IO outcomes the program
  merely propagates (file reads, yaml decoding, limiter token availability,
  Kafka write results) enter the model as explicit oracle inputs.
-/

/-! ### String helpers mirroring the Go strings package (ASCII fragment) -/

/-- Model of Go Char lowering as used by strings.ToLower on ASCII input
(the classifier needles and config keywords are all ASCII). -/
def toLowerStr (s : String) : String := String.mk (s.data.map Char.toLower)

/-- Whether the first list is a prefix of the second, as Booleans. -/
def hasPfxL : List Char → List Char → Bool
  | [], _ => true
  | _ :: _, [] => false
  | p :: ps, c :: cs => p == c && hasPfxL ps cs

/-- Scan helper for substring containment: does pattern p occur in the list? -/
def containsFrom (p : List Char) : List Char → Bool
  | [] => hasPfxL p []
  | c :: cs => hasPfxL p (c :: cs) || containsFrom p cs

/-- Model of Go strings.Contains s p. -/
def strContains (s p : String) : Bool := containsFrom p.data s.data

/-- Model of Go strings.HasPrefix s p. -/
def strHasPfx (s p : String) : Bool := hasPfxL p.data s.data

/-- Whether a character is ASCII whitespace (fragment of unicode.IsSpace
sufficient for the configuration strings in scope). -/
def isSpaceChar (c : Char) : Bool := c == ' ' || c == '\t' || c == '\n' || c == '\r'

/-- Model of Go strings.TrimSpace (ASCII fragment). -/
def trimSpaceStr (s : String) : String :=
  String.mk (((s.data.dropWhile isSpaceChar).reverse.dropWhile isSpaceChar).reverse)

/-! ### Kafka error classification (server.go classifyKafkaError) -/

/-- A Go error value as the classifier observes it: the outcomes of
errors.Is(err, context.DeadlineExceeded), errors.As(err, net.Error) with
its Timeout() method, and the text err.Error(). -/
structure GoError where
  isDeadlineExceeded : Bool
  isNetError : Bool
  netTimeout : Bool
  text : String
deriving DecidableEq

/-- Embedding of classifyKafkaError from server.go: deadline check first,
then the net.Error category (timeout or network), then the lowercased
substring switch in source order, with the bare timeout substring last
before the fallthrough. -/
def classifyKafkaError (e : GoError) : String :=
  if e.isDeadlineExceeded then "timeout"
  else if e.isNetError then
    (if e.netTimeout then "timeout" else "network")
  else
    let msg := toLowerStr e.text
    if strContains msg ("not leader") then "not_leader"
    else if strContains msg ("unknown topic") then "unknown_topic"
    else if strContains msg ("message too large") then "too_large"
    else if strContains msg ("connection refused") then "conn_refused"
    else if strContains msg ("connection reset") || strContains msg ("broken pipe") then "conn_reset"
    else if strContains msg ("timeout") then "timeout"
    else "other"

/-- Modelled from the spec (section 4.4 list): the classification table read
with precedence following the listed order, where the timeout conditions
(deadline exceeded, network-timeout predicate, or text containing the word
timeout) come first and the general network category comes after all the
substring cases. Written only for comparison with classifyKafkaError. -/
def specOrderClassify (e : GoError) : String :=
  let msg := toLowerStr e.text
  if e.isDeadlineExceeded || (e.isNetError && e.netTimeout) || strContains msg ("timeout") then "timeout"
  else if strContains msg ("not leader") then "not_leader"
  else if strContains msg ("unknown topic") then "unknown_topic"
  else if strContains msg ("message too large") then "too_large"
  else if strContains msg ("connection refused") then "conn_refused"
  else if strContains msg ("connection reset") || strContains msg ("broken pipe") then "conn_reset"
  else if e.isNetError then "network"
  else "other"

/-! ### Configuration model (config.go) -/

/-- Embedding of config.Config. Durations are nanosecond counts (Int, as Go
time.Duration); float64 fields are rationals; the broker list keeps order. -/
structure Config where
  kafkaBrokers : List String
  kafkaTopic : String
  kafkaRequiredAcks : Int
  kafkaBalancer : String
  kafkaWriteTimeout : Int
  kafkaSASLEnabled : Bool
  kafkaSASLMechanism : String
  kafkaSASLUsername : String
  kafkaSASLPassword : String
  kafkaTLSEnabled : Bool
  kafkaTLSInsecureSkipVerify : Bool
  kafkaTLSCAFile : String
  kafkaProbeEnabled : Bool
  kafkaProbeRequired : Bool
  kafkaProbeTimeout : Int
  kafkaProbeWrite : Bool
  maxBodyBytes : Int
  allowEmptyTenant : Bool
  defaultTenant : String
  metricsEnableTenantLabel : Bool
  healthErrorRateThreshold : ℚ
  healthConsecutiveErrorThreshold : Int
  healthEvalPeriod : Int
  slaGaugeEnable : Bool
  rateLimitEnabled : Bool
  rateLimitGlobalRPS : ℚ
  rateLimitGlobalBurst : Int
  rateLimitPerTenantRPS : ℚ
  rateLimitPerTenantBurst : Int
  logLevel : String
  quiet : Bool
  port : String
deriving DecidableEq

/-- Embedding of config.normalizeBalancer: lowercased, trimmed aliases map to
canonical names; anything else is returned as given. -/
def normalizeBalancer (v : String) : String :=
  let t := toLowerStr (trimSpaceStr v)
  if t = "" ∨ t = "sticky" then "sticky"
  else if t = "round_robin" ∨ t = "roundrobin" ∨ t = "round-robin" then "round_robin"
  else if t = "hash" then "hash"
  else if t = "least" ∨ t = "least_bytes" ∨ t = "least-bytes" then "sticky"
  else v

/-- Embedding of Config.Validate from config.go, checks in source order;
none means the configuration is valid. -/
def validate (c : Config) : Option String :=
  if c.kafkaBrokers = [] then some ("kafka_brokers required")
  else if c.kafkaTopic = "" then some ("kafka_topic required")
  else if ¬(toLowerStr c.kafkaBalancer = "sticky" ∨ toLowerStr c.kafkaBalancer = "round_robin"
      ∨ toLowerStr c.kafkaBalancer = "roundrobin" ∨ toLowerStr c.kafkaBalancer = "hash") then
    some ("unsupported kafka_balancer: " ++ c.kafkaBalancer)
  else if c.kafkaWriteTimeout ≤ 0 then some ("kafka_write_timeout must be > 0")
  else if c.kafkaSASLEnabled
      ∧ ¬(toLowerStr (trimSpaceStr c.kafkaSASLMechanism) = "scram-sha-512"
        ∨ toLowerStr (trimSpaceStr c.kafkaSASLMechanism) = "scram-sha-256") then
    some ("unsupported kafka_sasl_mechanism: " ++ c.kafkaSASLMechanism)
  else if c.kafkaSASLEnabled ∧ trimSpaceStr c.kafkaSASLUsername = "" then
    some ("kafka_sasl_username required when SASL enabled")
  else if c.kafkaProbeTimeout ≤ 0 then some ("kafka_probe_timeout must be > 0")
  else if c.maxBodyBytes ≤ 0 then some ("max_body_bytes must be > 0")
  else if c.healthEvalPeriod ≤ 0 then some ("health_eval_period must be > 0")
  else if c.healthErrorRateThreshold < 0 ∨ c.healthErrorRateThreshold > 1 then
    some ("health_error_rate_threshold must be between 0 and 1")
  else if c.rateLimitGlobalRPS < 0 ∨ c.rateLimitPerTenantRPS < 0 then
    some ("rate limits RPS must be >= 0")
  else if c.rateLimitGlobalBurst < 0 ∨ c.rateLimitPerTenantBurst < 0 then
    some ("rate limit bursts must be >= 0")
  else if ¬(c.logLevel = "info" ∨ c.logLevel = "debug") then
    some ("invalid log_level: " ++ c.logLevel)
  else none

/-- Embedding of config.ImmutableSubset (the struct type): the fields whose
change obliges a Kafka writer rebuild. -/
structure ImmutableFields where
  kafkaBrokers : List String
  kafkaTopic : String
  kafkaRequiredAcks : Int
  kafkaBalancer : String
  kafkaWriteTimeout : Int
  kafkaSASLEnabled : Bool
  kafkaSASLMechanism : String
  kafkaSASLUsername : String
  kafkaTLSEnabled : Bool
  kafkaTLSInsecureSkipVerify : Bool
  kafkaTLSCAFile : String
  metricsEnableTenantLabel : Bool
deriving DecidableEq

/-- Embedding of Config.ImmutableSubset (the extraction method); the Go code
copies the broker slice, which preserves the list value. -/
def immutableSubset (c : Config) : ImmutableFields :=
  { kafkaBrokers := c.kafkaBrokers
    kafkaTopic := c.kafkaTopic
    kafkaRequiredAcks := c.kafkaRequiredAcks
    kafkaBalancer := c.kafkaBalancer
    kafkaWriteTimeout := c.kafkaWriteTimeout
    kafkaSASLEnabled := c.kafkaSASLEnabled
    kafkaSASLMechanism := c.kafkaSASLMechanism
    kafkaSASLUsername := c.kafkaSASLUsername
    kafkaTLSEnabled := c.kafkaTLSEnabled
    kafkaTLSInsecureSkipVerify := c.kafkaTLSInsecureSkipVerify
    kafkaTLSCAFile := c.kafkaTLSCAFile
    metricsEnableTenantLabel := c.metricsEnableTenantLabel }

/-- Embedding of config.ImmutableChanged: negated structural equality
(reflect.DeepEqual on the subset struct). -/
def immutableChanged (a b : ImmutableFields) : Bool := decide (a ≠ b)

/-! ### Rate limiters (server.go buildRateLimitersLocked, ratelimit.go) -/

/-- A token bucket as rate.NewLimiter receives it: the limit and the burst. -/
structure TokenLimiter where
  rps : ℚ
  burst : Int
deriving DecidableEq

/-- Embedding of perTenantLimiter from ratelimit.go: the lazy tenant map plus
the (rps, burst) every lazily created bucket will use. -/
structure PerTenantLimiter where
  limiters : List (String × TokenLimiter)
  rps : ℚ
  burst : Int
deriving DecidableEq

/-- Embedding of newPerTenantLimiter: fresh empty map. -/
def newPerTenantLimiter (rps : ℚ) (burst : Int) : PerTenantLimiter :=
  { limiters := [], rps := rps, burst := burst }

/-- The pair of optional limiters the server owns. -/
structure Limiters where
  globalLimiter : Option TokenLimiter
  tenantLimiters : Option PerTenantLimiter
deriving DecidableEq

/-- Model of the Go conversion int(x) on a float64: truncation toward zero. -/
def goTruncToInt (q : ℚ) : Int := if q < 0 then q.ceil else q.floor

/-- Embedding of buildRateLimitersLocked from server.go: nothing when rate
limiting is disabled; otherwise a bucket per scope only when that scope has
rps > 0, with burst derived as int(rps*2) bumped to at least 1 when the
configured burst is not positive. -/
def buildRateLimiters (cfg : Config) : Limiters :=
  if ¬cfg.rateLimitEnabled then { globalLimiter := none, tenantLimiters := none }
  else
    let g :=
      if cfg.rateLimitGlobalRPS > 0 then
        let b0 := cfg.rateLimitGlobalBurst
        let b :=
          if b0 ≤ 0 then
            let d := goTruncToInt (cfg.rateLimitGlobalRPS * 2)
            if d < 1 then 1 else d
          else b0
        some { rps := cfg.rateLimitGlobalRPS, burst := b }
      else none
    let t :=
      if cfg.rateLimitPerTenantRPS > 0 then
        let b0 := cfg.rateLimitPerTenantBurst
        let b :=
          if b0 ≤ 0 then
            let d := goTruncToInt (cfg.rateLimitPerTenantRPS * 2)
            if d < 1 then 1 else d
          else b0
        some (newPerTenantLimiter cfg.rateLimitPerTenantRPS b)
      else none
    { globalLimiter := g, tenantLimiters := t }

/-! ### Kafka message and the push handler (server.go handlePush) -/

/-- A kafka-go message header: key and byte value. -/
structure KHeader where
  key : String
  value : String
deriving DecidableEq

/-- The parts of a kafka-go Message the gateway sets (the timestamp is
wall-clock and outside the model). none for the key means the Key field is
left nil (unset). -/
structure KafkaMessage where
  key : Option String
  value : String
  headers : List KHeader
deriving DecidableEq

/-- One HTTP push request together with the oracle outcomes of its
environment: the transport error of the body read if any, the token
availability the two buckets would report, and the Kafka write result. -/
structure PushEnv where
  method : String
  path : String
  tenantHeader : String
  contentType : String
  contentEncoding : String
  body : String
  readErr : Option String
  globalAllow : Bool
  tenantAllow : Bool
  writeErr : Option GoError
deriving DecidableEq

/-- Everything observable the handler did with one request: HTTP status and
result label, response body, effective tenant, which rate-limit scope
rejected (if any), the message handed to the Kafka writer (if any), the
TrackResult calls made, and the consecutive-error streak afterwards. -/
structure PushOutcome where
  status : Nat
  result : String
  httpBody : String
  tenant : String
  rateLimitedScope : Option String
  produced : Option KafkaMessage
  track : List (Bool × Bool)
  consecAfter : Int
deriving DecidableEq

/-- Model of http.MaxBytesReader followed by io.ReadAll and the error text it
yields when the bound is exceeded; an underlying transport failure surfaces
as its own error text. -/
def readBody (maxBodyBytes : Int) (env : PushEnv) : Except String String :=
  match env.readErr with
  | some e => Except.error e
  | none =>
    if (env.body.length : Int) > maxBodyBytes then
      Except.error ("http: request body too large")
    else Except.ok env.body

/-- Embedding of classifyContentType from server.go. -/
def classifyContentType (ct : String) : String :=
  let t := trimSpaceStr ct
  if t = "" then "proto"
  else if strHasPfx t ("application/x-protobuf") || strHasPfx t ("application/octet-stream") then "proto"
  else if strHasPfx t ("application/json") then "json"
  else "other"

/-- Embedding of handlePush from server.go, on the snapshot (cfg, limiters,
writer) and the incoming consecutive-error streak k. The source performs no
HTTP method check, so the model takes the method but never consults it;
Prometheus label bookkeeping other than the effects named in PushOutcome is
not modelled. -/
def handlePush (cfg : Config) (lims : Limiters) (k : Int) (env : PushEnv) : PushOutcome :=
  if env.tenantHeader = "" ∧ ¬cfg.allowEmptyTenant then
    { status := 400, result := "missing_tenant", httpBody := "Missing X-Scope-OrgID"
      tenant := "", rateLimitedScope := none, produced := none
      track := [(false, true)], consecAfter := k }
  else
    let tenant := if env.tenantHeader = "" then cfg.defaultTenant else env.tenantHeader
    if cfg.rateLimitEnabled ∧ lims.globalLimiter.isSome ∧ ¬env.globalAllow then
      { status := 429, result := "rate_limited", httpBody := "rate limited (global)"
        tenant := tenant, rateLimitedScope := some ("global"), produced := none
        track := [(false, true)], consecAfter := k }
    else if cfg.rateLimitEnabled ∧ lims.tenantLimiters.isSome ∧ ¬env.tenantAllow then
      { status := 429, result := "rate_limited", httpBody := "rate limited (tenant)"
        tenant := tenant, rateLimitedScope := some ("tenant"), produced := none
        track := [(false, true)], consecAfter := k }
    else
      match readBody cfg.maxBodyBytes env with
      | Except.error emsg =>
        let res := if strContains (toLowerStr emsg) ("request body too large") then "too_large" else "bad_request"
        { status := 400, result := res, httpBody := res
          tenant := tenant, rateLimitedScope := none, produced := none
          track := [(false, true)], consecAfter := k }
      | Except.ok body =>
        let headers :=
          [({ key := "X-Scope-OrgID", value := tenant } : KHeader)]
            ++ (if env.contentType = "" then [] else [{ key := "Content-Type", value := env.contentType }])
            ++ (if env.contentEncoding = "" then [] else [{ key := "Content-Encoding", value := env.contentEncoding }])
        let msg : KafkaMessage :=
          { key := if cfg.kafkaBalancer = "hash" then some tenant else none
            value := body, headers := headers }
        match env.writeErr with
        | some _ =>
          { status := 503, result := "kafka_error", httpBody := "kafka write failed"
            tenant := tenant, rateLimitedScope := none, produced := some msg
            track := [(false, true)], consecAfter := k + 1 }
        | none =>
          { status := 204, result := "success", httpBody := ""
            tenant := tenant, rateLimitedScope := none, produced := some msg
            track := [(true, false)], consecAfter := 0 }

/-! ### Counter triple (metrics.go TrackResult / Snapshot) -/

/-- The in-process counter triple of the metrics registry. -/
structure CounterTriple where
  total : Nat
  success : Nat
  errors : Nat
deriving DecidableEq

/-- Embedding of Registry.TrackResult: total always increments; success and
errors increment under their flags. -/
def trackResult (c : CounterTriple) (isSuccess isError : Bool) : CounterTriple :=
  { total := c.total + 1
    success := if isSuccess then c.success + 1 else c.success
    errors := if isError then c.errors + 1 else c.errors }

/-- Replay a list of TrackResult invocations. -/
def applyTrack : CounterTriple → List (Bool × Bool) → CounterTriple
  | c, [] => c
  | c, (s, e) :: rest => applyTrack (trackResult c s e) rest

/-- One request as the server sees it: the configuration and limiter snapshot
the handler takes, plus the request and its environment oracles. -/
structure ReqStep where
  cfg : Config
  lims : Limiters
  env : PushEnv

/-- Run a sequence of push requests against the counter triple and the
consecutive-error streak, each request tracked by handlePush. -/
def runRequests : CounterTriple × Int → List ReqStep → CounterTriple × Int
  | st, [] => st
  | (c, k), r :: rest =>
    let out := handlePush r.cfg r.lims k r.env
    runRequests (applyTrack c out.track, out.consecAfter) rest

/-! ### Health evaluator (server.go healthLoop body) -/

/-- Go uint64 subtraction a - b as arithmetic modulo 2^64 (the snapshot
counters are uint64). -/
def sub64 (a b : Nat) : Nat := (a + (2 ^ 64 - b % 2 ^ 64)) % 2 ^ 64

/-- The state the health loop owns across ticks: the previous snapshot and
the two gauges it maintains. -/
structure HealthState where
  prevTotal : Nat
  prevSuccess : Nat
  prevErrors : Nat
  healthUp : ℚ
  slaGauge : ℚ
deriving DecidableEq

/-- A snapshot of the counter triple as Registry.Snapshot returns it. -/
structure CounterSnapshot where
  total : Nat
  success : Nat
  errors : Nat
deriving DecidableEq

/-- Embedding of one tick of healthLoop from server.go: compute the deltas,
advance the previous snapshot, and only when the total moved update the SLA
gauge (when enabled) and recompute health from the error rate and the
consecutive-error streak k read from the server. -/
def healthTick (cfg : Config) (k : Int) (st : HealthState) (snap : CounterSnapshot) : HealthState :=
  let dTotal := sub64 snap.total st.prevTotal
  let dSucc := sub64 snap.success st.prevSuccess
  let dErr := sub64 snap.errors st.prevErrors
  let st1 : HealthState :=
    { st with prevTotal := snap.total, prevSuccess := snap.success, prevErrors := snap.errors }
  if dTotal > 0 then
    let errorRate : ℚ := (dErr : ℚ) / (dTotal : ℚ)
    let st2 := if cfg.slaGaugeEnable then { st1 with slaGauge := (dSucc : ℚ) / (dTotal : ℚ) } else st1
    if errorRate > cfg.healthErrorRateThreshold ∨ k ≥ cfg.healthConsecutiveErrorThreshold then
      { st2 with healthUp := 0 }
    else
      { st2 with healthUp := 1 }
  else st1

/-! ### Readiness endpoint (server.go readyHandler / isHealthy) -/

/-- What readyHandler can observe: whether the metrics registry pointer is
non-nil and the value of the health gauge. -/
structure ReadyState where
  metricsPresent : Bool
  healthUp : ℚ
deriving DecidableEq

/-- Embedding of Server.isHealthy from server.go: it only tests that the
metrics registry is non-nil and never reads the health gauge. -/
def isHealthy (s : ReadyState) : Bool := s.metricsPresent

/-- Embedding of readyHandler: 200 when isHealthy, else 503 with the body
word degraded. -/
def readyHandler (s : ReadyState) : Nat × Option String :=
  if isHealthy s then (200, none) else (503, some ("degraded"))

/-- Modelled from the spec (section 6 endpoint table): the readiness status
the claim demands, 200 when the health gauge is non-zero and 503 otherwise.
Written only for comparison with readyHandler. -/
def specReadyStatus (s : ReadyState) : Nat := if s.healthUp ≠ 0 then 200 else 503

/-! ### Runtime view (config.go RuntimeView) -/

/-- Abstract model of the Go rendering time.Duration.String used by
RuntimeView for the two duration fields; the exact text is irrelevant to the
claims, only which input it reads. -/
def durationString (d : Int) : String := toString d

/-- Embedding of config.RuntimeView (the struct serialised by /configz).
Field for field as in the source; note the source declares no field for the
SASL password nor for any of the four startup-probe settings. -/
structure RuntimeView where
  kafkaBrokers : List String
  kafkaTopic : String
  kafkaRequiredAcks : Int
  kafkaBalancer : String
  kafkaWriteTimeout : String
  kafkaSASLEnabled : Bool
  kafkaSASLMechanism : String
  kafkaSASLUsername : String
  kafkaTLSEnabled : Bool
  kafkaTLSInsecureSkipVerify : Bool
  kafkaTLSCAFile : String
  maxBodyBytes : Int
  allowEmptyTenant : Bool
  defaultTenant : String
  metricsEnableTenantLabel : Bool
  healthErrorRateThreshold : ℚ
  healthConsecutiveErrorThreshold : Int
  healthEvalPeriod : String
  slaGaugeEnable : Bool
  rateLimitEnabled : Bool
  rateLimitGlobalRPS : ℚ
  rateLimitGlobalBurst : Int
  rateLimitPerTenantRPS : ℚ
  rateLimitPerTenantBurst : Int
  logLevel : String
  quiet : Bool
  port : String
deriving DecidableEq

/-- Embedding of Config.RuntimeView from config.go (the function serving GET
configz). -/
def runtimeView (c : Config) : RuntimeView :=
  { kafkaBrokers := c.kafkaBrokers
    kafkaTopic := c.kafkaTopic
    kafkaRequiredAcks := c.kafkaRequiredAcks
    kafkaBalancer := c.kafkaBalancer
    kafkaWriteTimeout := durationString c.kafkaWriteTimeout
    kafkaSASLEnabled := c.kafkaSASLEnabled
    kafkaSASLMechanism := c.kafkaSASLMechanism
    kafkaSASLUsername := c.kafkaSASLUsername
    kafkaTLSEnabled := c.kafkaTLSEnabled
    kafkaTLSInsecureSkipVerify := c.kafkaTLSInsecureSkipVerify
    kafkaTLSCAFile := c.kafkaTLSCAFile
    maxBodyBytes := c.maxBodyBytes
    allowEmptyTenant := c.allowEmptyTenant
    defaultTenant := c.defaultTenant
    metricsEnableTenantLabel := c.metricsEnableTenantLabel
    healthErrorRateThreshold := c.healthErrorRateThreshold
    healthConsecutiveErrorThreshold := c.healthConsecutiveErrorThreshold
    healthEvalPeriod := durationString c.healthEvalPeriod
    slaGaugeEnable := c.slaGaugeEnable
    rateLimitEnabled := c.rateLimitEnabled
    rateLimitGlobalRPS := c.rateLimitGlobalRPS
    rateLimitGlobalBurst := c.rateLimitGlobalBurst
    rateLimitPerTenantRPS := c.rateLimitPerTenantRPS
    rateLimitPerTenantBurst := c.rateLimitPerTenantBurst
    logLevel := c.logLevel
    quiet := c.quiet
    port := c.port }

/-! ### Reload controller (server.go Reload, config.go LoadFromFile / Parse) -/

/-- The outcome of the file and yaml layer feeding config.LoadFromFile: either
an IO failure opening or reading the file, or the yaml unmarshal outcome over
the bytes read (an unmarshal error, or the decoded configuration). -/
inductive LoadInput where
  | ioError (e : String)
  | content (yaml : Except String Config)

/-- Embedding of config.Parse: yaml unmarshal outcome, then balancer
normalisation, then validation. -/
def parseConfig (yaml : Except String Config) : Except String Config :=
  match yaml with
  | Except.error e => Except.error ("yaml unmarshal: " ++ e)
  | Except.ok c0 =>
    let c := { c0 with kafkaBalancer := normalizeBalancer c0.kafkaBalancer }
    match validate c with
    | some e => Except.error e
    | none => Except.ok c

/-- Embedding of config.LoadFromFile over the oracle input. -/
def loadFromFile : LoadInput → Except String Config
  | LoadInput.ioError e => Except.error e
  | LoadInput.content y => parseConfig y

/-- The server state the reload controller may replace: configuration, Kafka
writer handle (identified by a number) and the rate limiters. -/
structure RtState where
  cfg : Config
  writer : Nat
  limiters : Limiters
deriving DecidableEq

/-- The writer lifecycle events Reload emits, in order. -/
inductive ReloadEvent where
  | publishWriter (id : Nat)
  | closeWriter (id : Nat)
deriving DecidableEq

/-- Embedding of Server.Reload from server.go: load and validate the file
(failure returns the error, state untouched); when the immutable subset
changed, build the new writer first (failure returns the error, state
untouched), then publish it and close the old one; finally publish the new
configuration and rebuild the rate limiters from scratch. The kafka.NewWriter
outcome is an oracle input since it performs IO. -/
def reload (st : RtState) (load : LoadInput) (buildWriterResult : Except String Nat) :
    RtState × Option String × List ReloadEvent :=
  match loadFromFile load with
  | Except.error e => (st, some e, [])
  | Except.ok newCfg =>
    if immutableChanged (immutableSubset st.cfg) (immutableSubset newCfg) then
      match buildWriterResult with
      | Except.error e => (st, some ("rebuild writer: " ++ e), [])
      | Except.ok w =>
        ({ cfg := newCfg, writer := w, limiters := buildRateLimiters newCfg }, none,
          [ReloadEvent.publishWriter w, ReloadEvent.closeWriter st.writer])
    else
      ({ cfg := newCfg, writer := st.writer, limiters := buildRateLimiters newCfg }, none, [])

/-! ### Concrete fixtures used by counterexamples and witnesses -/

/-- A valid baseline configuration (rate limiting off, sticky balancer),
literal values as in the spec scenario E1. -/
def cfg0 : Config :=
  { kafkaBrokers := ["b:9092"]
    kafkaTopic := "t"
    kafkaRequiredAcks := 1
    kafkaBalancer := "sticky"
    kafkaWriteTimeout := 10000000000
    kafkaSASLEnabled := false
    kafkaSASLMechanism := "scram-sha-512"
    kafkaSASLUsername := ""
    kafkaSASLPassword := ""
    kafkaTLSEnabled := false
    kafkaTLSInsecureSkipVerify := false
    kafkaTLSCAFile := ""
    kafkaProbeEnabled := true
    kafkaProbeRequired := true
    kafkaProbeTimeout := 5000000000
    kafkaProbeWrite := false
    maxBodyBytes := 1024
    allowEmptyTenant := false
    defaultTenant := "anonymous"
    metricsEnableTenantLabel := false
    healthErrorRateThreshold := mkRat 1 20
    healthConsecutiveErrorThreshold := 5
    healthEvalPeriod := 30000000000
    slaGaugeEnable := true
    rateLimitEnabled := false
    rateLimitGlobalRPS := 0
    rateLimitGlobalBurst := 0
    rateLimitPerTenantRPS := 0
    rateLimitPerTenantBurst := 0
    logLevel := "info"
    quiet := false
    port := "3101" }

/-- A GET request to the push endpoint with a tenant and a small body, whose
environment oracles all succeed. -/
def envGet : PushEnv :=
  { method := "GET"
    path := "/loki/api/v1/push"
    tenantHeader := "acme"
    contentType := ""
    contentEncoding := ""
    body := "x"
    readErr := none
    globalAllow := true
    tenantAllow := true
    writeErr := none }

/-- A plain (non-network) Go error whose lowercased text contains both the
not-leader needle and the timeout needle. -/
def errNotLeaderTimeout : GoError :=
  { isDeadlineExceeded := false, isNetError := false, netTimeout := false
    text := "Not Leader: request Timeout" }

/-! ### Claim theorems -/

/-- Claim C1 (code bug evidence). The readiness handler in the source decides
from isHealthy, which only tests that the metrics registry pointer is non-nil
and never reads the health gauge: with the gauge at 0 (degraded) it still
answers 200 with no body, while the claim (readiness equals the predicate
health_up not equal to 0) demands 503 with body degraded on that same state. -/
theorem ready_ignores_health_gauge :
    readyHandler { metricsPresent := true, healthUp := 0 } = (200, none)
    ∧ specReadyStatus { metricsPresent := true, healthUp := 0 } = 503 := by
  constructor <;> decide

/-- Claim C2 (code bug evidence). The source handlePush never inspects the
HTTP method: a GET request with a tenant header runs the whole pipeline and
ends with 204 and a produced Kafka message, and no input whatsoever makes the
handler answer 405 (the claimed S1 terminal outcome does not exist). -/
theorem push_handler_lacks_method_check :
    (envGet.method = "GET"
      ∧ (handlePush cfg0 (buildRateLimiters cfg0) 0 envGet).status = 204
      ∧ (handlePush cfg0 (buildRateLimiters cfg0) 0 envGet).produced.isSome = true)
    ∧ (∀ (cfg : Config) (lims : Limiters) (k : Int) (env : PushEnv),
        (handlePush cfg lims k env).status ≠ 405) := by
  constructor
  · refine ⟨rfl, ?_, ?_⟩ <;> decide
  · intro cfg lims k env
    unfold handlePush
    repeat' split
    all_goals simp

/-- Claim C4 counterexample. On the concrete error whose text contains both
the not-leader needle and the timeout needle, the source classifier answers
not_leader while the claimed precedence (timeout conditions first) demands
timeout; so the classifier does not follow the listed order. -/
theorem classify_precedence_counterexample :
    classifyKafkaError errNotLeaderTimeout = "not_leader"
    ∧ specOrderClassify errNotLeaderTimeout = "timeout"
    ∧ classifyKafkaError errNotLeaderTimeout ≠ specOrderClassify errNotLeaderTimeout := by
  refine ⟨by decide, by decide, by decide⟩

/-- Claim C4 as amended. The classifier yields the table labels under
case-insensitive matching, but with the precedence of the source: the
deadline-exceeded check first, then the network-category predicate (timeout
when its Timeout method answers true, network otherwise, both before any text
matching), then the substrings not leader, unknown topic, message too large,
connection refused, connection reset or broken pipe, and only then the bare
timeout text, with other as fallthrough. -/
theorem classify_follows_source_order (e : GoError) :
    (e.isDeadlineExceeded = true → classifyKafkaError e = "timeout")
    ∧ (e.isDeadlineExceeded = false → e.isNetError = true → e.netTimeout = true →
        classifyKafkaError e = "timeout")
    ∧ (e.isDeadlineExceeded = false → e.isNetError = true → e.netTimeout = false →
        classifyKafkaError e = "network")
    ∧ (e.isDeadlineExceeded = false → e.isNetError = false →
        strContains (toLowerStr e.text) ("not leader") = true →
        classifyKafkaError e = "not_leader")
    ∧ (e.isDeadlineExceeded = false → e.isNetError = false →
        strContains (toLowerStr e.text) ("not leader") = false →
        strContains (toLowerStr e.text) ("unknown topic") = true →
        classifyKafkaError e = "unknown_topic")
    ∧ (e.isDeadlineExceeded = false → e.isNetError = false →
        strContains (toLowerStr e.text) ("not leader") = false →
        strContains (toLowerStr e.text) ("unknown topic") = false →
        strContains (toLowerStr e.text) ("message too large") = true →
        classifyKafkaError e = "too_large")
    ∧ (e.isDeadlineExceeded = false → e.isNetError = false →
        strContains (toLowerStr e.text) ("not leader") = false →
        strContains (toLowerStr e.text) ("unknown topic") = false →
        strContains (toLowerStr e.text) ("message too large") = false →
        strContains (toLowerStr e.text) ("connection refused") = true →
        classifyKafkaError e = "conn_refused")
    ∧ (e.isDeadlineExceeded = false → e.isNetError = false →
        strContains (toLowerStr e.text) ("not leader") = false →
        strContains (toLowerStr e.text) ("unknown topic") = false →
        strContains (toLowerStr e.text) ("message too large") = false →
        strContains (toLowerStr e.text) ("connection refused") = false →
        (strContains (toLowerStr e.text) ("connection reset") = true
          ∨ strContains (toLowerStr e.text) ("broken pipe") = true) →
        classifyKafkaError e = "conn_reset")
    ∧ (e.isDeadlineExceeded = false → e.isNetError = false →
        strContains (toLowerStr e.text) ("not leader") = false →
        strContains (toLowerStr e.text) ("unknown topic") = false →
        strContains (toLowerStr e.text) ("message too large") = false →
        strContains (toLowerStr e.text) ("connection refused") = false →
        strContains (toLowerStr e.text) ("connection reset") = false →
        strContains (toLowerStr e.text) ("broken pipe") = false →
        strContains (toLowerStr e.text) ("timeout") = true →
        classifyKafkaError e = "timeout")
    ∧ (e.isDeadlineExceeded = false → e.isNetError = false →
        strContains (toLowerStr e.text) ("not leader") = false →
        strContains (toLowerStr e.text) ("unknown topic") = false →
        strContains (toLowerStr e.text) ("message too large") = false →
        strContains (toLowerStr e.text) ("connection refused") = false →
        strContains (toLowerStr e.text) ("connection reset") = false →
        strContains (toLowerStr e.text) ("broken pipe") = false →
        strContains (toLowerStr e.text) ("timeout") = false →
        classifyKafkaError e = "other") := by
  refine ⟨?_, ?_, ?_, ?_, ?_, ?_, ?_, ?_, ?_, ?_⟩ <;>
    (intros; simp_all [classifyKafkaError])

/-- Claim C4 witness: the amended theorem applied at the concrete error of the
counterexample, whose guards are discharged by computation. -/
theorem classify_follows_source_order_witness :
    classifyKafkaError errNotLeaderTimeout = "not_leader" :=
  (classify_follows_source_order errNotLeaderTimeout).2.2.2.1 rfl rfl (by decide)

/-- Claim C3. Reload is atomic on failure and orders the writer swap: a load,
parse or validation error returns that error with configuration, writer and
limiters untouched; when the immutable subset changed and the writer rebuild
fails, the error is returned with everything untouched; on a successful
rebuild the new writer is published before the old one is closed, and without
an immutable change the writer is kept while the configuration and limiters
are replaced. -/
theorem reload_atomic (st : RtState) (load : LoadInput) (bw : Except String Nat) :
    (∀ e, loadFromFile load = Except.error e → reload st load bw = (st, some e, []))
    ∧ (∀ c e, loadFromFile load = Except.ok c →
        immutableChanged (immutableSubset st.cfg) (immutableSubset c) = true →
        bw = Except.error e →
        reload st load bw = (st, some ("rebuild writer: " ++ e), []))
    ∧ (∀ c w, loadFromFile load = Except.ok c →
        immutableChanged (immutableSubset st.cfg) (immutableSubset c) = true →
        bw = Except.ok w →
        reload st load bw =
          ({ cfg := c, writer := w, limiters := buildRateLimiters c }, none,
            [ReloadEvent.publishWriter w, ReloadEvent.closeWriter st.writer]))
    ∧ (∀ c, loadFromFile load = Except.ok c →
        immutableChanged (immutableSubset st.cfg) (immutableSubset c) = false →
        reload st load bw = ({ cfg := c, writer := st.writer, limiters := buildRateLimiters c }, none, [])) := by
  refine ⟨?_, ?_, ?_, ?_⟩
  · intro e h
    unfold reload
    rw [h]
  · intro c e h h2 h3
    unfold reload
    rw [h, h3]
    simp [h2]
  · intro c w h h2 h3
    unfold reload
    rw [h, h3]
    simp [h2]
  · intro c h h2
    unfold reload
    rw [h]
    simp [h2]

/-- A configuration differing from the baseline only in the broker list, so
its immutable subset differs. -/
def cfg1 : Config := { cfg0 with kafkaBrokers := ["b2:9092"] }

/-- The concrete load outcome for cfg1 passes parse and validation unchanged. -/
theorem loadFromFile_cfg1 : loadFromFile (LoadInput.content (Except.ok cfg1)) = Except.ok cfg1 := by
  have h1 : ({ cfg1 with kafkaBalancer := normalizeBalancer cfg1.kafkaBalancer } : Config) = cfg1 := by
    decide
  have h2 : validate cfg1 = none := by decide
  simp only [loadFromFile, parseConfig, h1, h2]

/-- Claim C3 witness: the theorem applied at concrete inputs, one failing load
that leaves the concrete state intact and one successful rebuild that
publishes writer 2 before closing writer 1. -/
theorem reload_atomic_witness :
    reload { cfg := cfg0, writer := 1, limiters := buildRateLimiters cfg0 }
        (LoadInput.ioError ("open config: no such file")) (Except.ok 2) =
      ({ cfg := cfg0, writer := 1, limiters := buildRateLimiters cfg0 },
        some ("open config: no such file"), [])
    ∧ reload { cfg := cfg0, writer := 1, limiters := buildRateLimiters cfg0 }
        (LoadInput.content (Except.ok cfg1)) (Except.ok 2) =
      ({ cfg := cfg1, writer := 2, limiters := buildRateLimiters cfg1 }, none,
        [ReloadEvent.publishWriter 2, ReloadEvent.closeWriter 1]) :=
  ⟨(reload_atomic _ _ _).1 _ rfl,
    (reload_atomic _ _ _).2.2.1 cfg1 2 loadFromFile_cfg1 (by decide) rfl⟩

/-! ### Claim C5: the produced Kafka message -/

/-- Whether a message carries a non-empty key equal to the tenant, the
property the claim asserts holds iff the balancer is hash. -/
def nonEmptyKeyEqTenant (m : KafkaMessage) (tenant : String) : Bool :=
  match m.key with
  | some s => !(s == "") && (s == tenant)
  | none => false

/-- A configuration that passes validation yet yields an empty effective
tenant: empty tenants allowed, empty default tenant, hash balancer. -/
def cfgHashEmpty : Config :=
  { cfg0 with kafkaBalancer := "hash", allowEmptyTenant := true, defaultTenant := "" }

/-- A POST without tenant header whose environment oracles all succeed. -/
def envNoTenant : PushEnv := { envGet with method := "POST", tenantHeader := "" }

/-- Claim C5 counterexample. Under a valid configuration with hash balancer,
allow_empty_tenant and an empty default tenant, a request without tenant
header reaches the produce step and the message key is set to the empty
tenant: the key equals the tenant byte-string but is empty, so the claimed
iff (non-empty key equal to the tenant iff balancer is hash) fails while the
balancer is hash. -/
theorem tenant_key_counterexample :
    validate cfgHashEmpty = none
    ∧ (handlePush cfgHashEmpty (buildRateLimiters cfgHashEmpty) 0 envNoTenant).produced =
        some { key := some "", value := "x", headers := [{ key := "X-Scope-OrgID", value := "" }] }
    ∧ cfgHashEmpty.kafkaBalancer = "hash"
    ∧ ¬(nonEmptyKeyEqTenant
          { key := some "", value := "x", headers := [{ key := "X-Scope-OrgID", value := "" }] }
          ((handlePush cfgHashEmpty (buildRateLimiters cfgHashEmpty) 0 envNoTenant).tenant) = true
        ↔ cfgHashEmpty.kafkaBalancer = "hash") := by
  refine ⟨by decide, by decide, by decide, by decide⟩

/-- The effective tenant of a request: the header value, or the configured
default when the header is empty (the substitution in handlePush). -/
def effectiveTenant (cfg : Config) (env : PushEnv) : String :=
  if env.tenantHeader = "" then cfg.defaultTenant else env.tenantHeader

/-- Characterisation of a successful bounded body read. -/
theorem readBody_ok_iff {mb : Int} {env : PushEnv} {b : String} :
    readBody mb env = Except.ok b
      ↔ env.readErr = none ∧ ¬((env.body.length : Int) > mb) ∧ env.body = b := by
  unfold readBody
  cases henv : env.readErr with
  | some e => simp [henv]
  | none =>
    by_cases hgt : (env.body.length : Int) > mb
    · simp [henv, hgt]
    · simp [henv, hgt, eq_comm]

/-- Claim C5 as amended. Every message handed to the produce step has value
equal to the body bytes read from the request, headers consisting of the
tenant header followed by the original Content-Type and Content-Encoding
exactly when those are non-empty, and a key equal to the effective tenant iff
the balancer is hash (no key otherwise); the key is non-empty whenever the
effective tenant is non-empty, which validation does not force when empty
tenants are allowed with an empty default tenant. -/
theorem produced_message_shape (cfg : Config) (lims : Limiters) (k : Int) (env : PushEnv)
    (m : KafkaMessage) (h : (handlePush cfg lims k env).produced = some m) :
    m = { key := if cfg.kafkaBalancer = "hash" then some (effectiveTenant cfg env) else none
          value := env.body
          headers :=
            [{ key := "X-Scope-OrgID", value := effectiveTenant cfg env }]
              ++ (if env.contentType = "" then []
                  else [{ key := "Content-Type", value := env.contentType }])
              ++ (if env.contentEncoding = "" then []
                  else [{ key := "Content-Encoding", value := env.contentEncoding }]) }
    ∧ (effectiveTenant cfg env ≠ "" →
        (nonEmptyKeyEqTenant m (effectiveTenant cfg env) = true
          ↔ cfg.kafkaBalancer = "hash")) := by
  unfold handlePush at h
  repeat' split at h
  all_goals (first | (exact Option.noConfusion h) | (simp at h; subst h))
  all_goals simp_all [readBody_ok_iff, effectiveTenant, nonEmptyKeyEqTenant]

/-- The baseline configuration with the hash balancer (spec scenario E2). -/
def cfgHash : Config := { cfg0 with kafkaBalancer := "hash" }

/-- Claim C5 witness: the amended theorem applied to a concrete request under
the hash balancer, whose produce hypothesis and non-empty tenant are
discharged by computation. -/
theorem produced_message_shape_witness :
    nonEmptyKeyEqTenant
        { key := some ("acme"), value := "x",
          headers := [{ key := "X-Scope-OrgID", value := "acme" }] } ("acme") = true
      ↔ cfgHash.kafkaBalancer = "hash" := by
  have h := produced_message_shape cfgHash (buildRateLimiters cfgHash) 0 envGet
    { key := some ("acme"), value := "x", headers := [{ key := "X-Scope-OrgID", value := "acme" }] }
    (by decide)
  have h2 := h.2 (by decide)
  have heff : effectiveTenant cfgHash envGet = "acme" := by decide
  rw [heff] at h2
  exact h2

/-! ### Claim C6: counter-triple consistency -/

/-- Each handlePush terminal path performs exactly one TrackResult call, with
exclusive flags. -/
theorem handlePush_track_single (cfg : Config) (lims : Limiters) (k : Int) (env : PushEnv) :
    (handlePush cfg lims k env).track = [(false, true)]
    ∨ (handlePush cfg lims k env).track = [(true, false)] := by
  unfold handlePush
  repeat' split
  all_goals simp

/-- The total = success + errors invariant is preserved from any state. -/
theorem runRequests_invariant (reqs : List ReqStep) :
    ∀ (c : CounterTriple) (k : Int), c.total = c.success + c.errors →
      ((runRequests (c, k) reqs).1).total =
        ((runRequests (c, k) reqs).1).success + ((runRequests (c, k) reqs).1).errors := by
  induction reqs with
  | nil => intro c k h; simpa [runRequests] using h
  | cons r rest ih =>
    intro c k h
    have ht := handlePush_track_single r.cfg r.lims k r.env
    simp only [runRequests]
    rcases ht with ht | ht <;> rw [ht] <;>
      exact ih _ _ (by simp [applyTrack, trackResult]; omega)

/-- Claim C6. Every terminal path of the push handler increments the counter
triple exactly once, with either the success flag or the error flag and never
both or neither; consequently, over any sequence of requests started from
zeroed counters, total = success + errors holds after every request. -/
theorem counter_triple_consistency :
    (∀ (cfg : Config) (lims : Limiters) (k : Int) (env : PushEnv),
      (handlePush cfg lims k env).track = [(false, true)]
      ∨ (handlePush cfg lims k env).track = [(true, false)])
    ∧ (∀ reqs : List ReqStep,
        ((runRequests ({ total := 0, success := 0, errors := 0 }, 0) reqs).1).total =
          ((runRequests ({ total := 0, success := 0, errors := 0 }, 0) reqs).1).success +
            ((runRequests ({ total := 0, success := 0, errors := 0 }, 0) reqs).1).errors) :=
  ⟨handlePush_track_single, fun reqs => runRequests_invariant reqs _ 0 rfl⟩

/-- Claim C7. On every health tick the previous snapshot is advanced; when
the total delta is zero the health gauge and the SLA gauge are left as they
were; otherwise the SLA gauge is set to dS/dT exactly when enabled, and the
health gauge becomes 0 precisely when the error rate dE/dT exceeds the
threshold or the consecutive-error streak reaches its threshold, and 1
otherwise. Deltas are uint64 subtractions and the float64 arithmetic of the
source is modelled over the rationals. -/
theorem health_tick_spec (cfg : Config) (k : Int) (st : HealthState) (snap : CounterSnapshot) :
    ((healthTick cfg k st snap).prevTotal = snap.total
      ∧ (healthTick cfg k st snap).prevSuccess = snap.success
      ∧ (healthTick cfg k st snap).prevErrors = snap.errors)
    ∧ (sub64 snap.total st.prevTotal = 0 →
        (healthTick cfg k st snap).healthUp = st.healthUp
        ∧ (healthTick cfg k st snap).slaGauge = st.slaGauge)
    ∧ (sub64 snap.total st.prevTotal ≠ 0 →
        (cfg.slaGaugeEnable = true →
          (healthTick cfg k st snap).slaGauge =
            (sub64 snap.success st.prevSuccess : ℚ) / (sub64 snap.total st.prevTotal : ℚ))
        ∧ (cfg.slaGaugeEnable = false →
          (healthTick cfg k st snap).slaGauge = st.slaGauge)
        ∧ ((healthTick cfg k st snap).healthUp =
            if (sub64 snap.errors st.prevErrors : ℚ) / (sub64 snap.total st.prevTotal : ℚ) >
                  cfg.healthErrorRateThreshold
                ∨ k ≥ cfg.healthConsecutiveErrorThreshold
            then 0 else 1)) := by
  by_cases hd : sub64 snap.total st.prevTotal = 0
  · unfold healthTick
    simp [hd]
  · have hpos : 0 < sub64 snap.total st.prevTotal := Nat.pos_of_ne_zero hd
    unfold healthTick
    by_cases hs : cfg.slaGaugeEnable <;>
      by_cases hu : (sub64 snap.errors st.prevErrors : ℚ) / (sub64 snap.total st.prevTotal : ℚ) >
            cfg.healthErrorRateThreshold
          ∨ k ≥ cfg.healthConsecutiveErrorThreshold <;>
      simp [hpos, hs, hu, hd]

/-- Health-loop state fixture: zero previous snapshot, healthy gauges. -/
def stW : HealthState :=
  { prevTotal := 0, prevSuccess := 0, prevErrors := 0, healthUp := 1, slaGauge := 0 }

/-- Counter snapshot fixture: 100 requests, 90 successes, 10 errors. -/
def snapW : CounterSnapshot := { total := 100, success := 90, errors := 10 }

/-- Claim C7 witness: the theorem applied at a concrete tick where the streak
is at 7 against a threshold of 5, forcing the gauge to 0, the SLA gauge to
dS/dT, and the snapshot to advance. -/
theorem health_tick_spec_witness :
    (healthTick cfg0 7 stW snapW).healthUp = 0
    ∧ (healthTick cfg0 7 stW snapW).slaGauge =
        (sub64 snapW.success stW.prevSuccess : ℚ) / (sub64 snapW.total stW.prevTotal : ℚ)
    ∧ (healthTick cfg0 7 stW snapW).prevTotal = 100 := by
  have h := health_tick_spec cfg0 7 stW snapW
  have hne : sub64 snapW.total stW.prevTotal ≠ 0 := by decide
  refine ⟨?_, (h.2.2 hne).1 rfl, h.1.1⟩
  have h3 := (h.2.2 hne).2.2
  have hcond : (sub64 snapW.errors stW.prevErrors : ℚ) / (sub64 snapW.total stW.prevTotal : ℚ) >
        cfg0.healthErrorRateThreshold ∨ (7 : Int) ≥ cfg0.healthConsecutiveErrorThreshold :=
    Or.inr (by decide)
  rw [h3, if_pos hcond]

/-! ### Claim C8: burst derivation and limiter rebuild -/

/-- The burst expression of buildRateLimitersLocked equals the claimed
max(1, floor(rps*2)) derivation when the configured burst is not positive. -/
theorem derivedBurst_eq (rps : ℚ) (b0 : Int) (hr : 0 < rps) :
    (if b0 ≤ 0 then
        (if goTruncToInt (rps * 2) < 1 then 1 else goTruncToInt (rps * 2))
      else b0)
    = if b0 > 0 then b0 else max 1 (rps * 2).floor := by
  have hq : (0 : ℚ) ≤ rps * 2 := by positivity
  by_cases hb : b0 ≤ 0
  · rw [if_pos hb, if_neg (show ¬b0 > 0 by omega)]
    simp only [goTruncToInt, if_neg (not_lt.mpr hq)]
    rcases lt_or_le ((rps * 2).floor) 1 with hd | hd
    · rw [if_pos hd, max_eq_left (show (rps * 2).floor ≤ 1 by omega)]
    · rw [if_neg (not_lt.mpr hd), max_eq_right hd]
  · rw [if_neg hb, if_pos (show b0 > 0 by omega)]

/-- Claim C8. When the limiters are built from a configuration with rate
limiting enabled and rps > 0 at a scope, the bucket for that scope carries
the configured burst when positive and otherwise max(1, floor(rps*2)) (the
Go int conversion truncates, which on the positive rps equals the floor);
this holds at the global and the per-tenant scope, the per-tenant map starts
empty, and every successful reload replaces the limiter set with one built
from scratch out of the new configuration. -/
theorem limiter_burst_derivation :
    (∀ cfg : Config, cfg.rateLimitEnabled = true → cfg.rateLimitGlobalRPS > 0 →
      (buildRateLimiters cfg).globalLimiter =
        some { rps := cfg.rateLimitGlobalRPS
               burst := if cfg.rateLimitGlobalBurst > 0 then cfg.rateLimitGlobalBurst
                        else max 1 (cfg.rateLimitGlobalRPS * 2).floor })
    ∧ (∀ cfg : Config, cfg.rateLimitEnabled = true → cfg.rateLimitPerTenantRPS > 0 →
      (buildRateLimiters cfg).tenantLimiters =
        some { limiters := []
               rps := cfg.rateLimitPerTenantRPS
               burst := if cfg.rateLimitPerTenantBurst > 0 then cfg.rateLimitPerTenantBurst
                        else max 1 (cfg.rateLimitPerTenantRPS * 2).floor })
    ∧ (∀ (st : RtState) (load : LoadInput) (bw : Except String Nat) (st2 : RtState)
        (ev : List ReloadEvent) (c : Config),
        reload st load bw = (st2, none, ev) → loadFromFile load = Except.ok c →
        st2.limiters = buildRateLimiters c) := by
  refine ⟨?_, ?_, ?_⟩
  · intro cfg he hr
    have key := derivedBurst_eq cfg.rateLimitGlobalRPS cfg.rateLimitGlobalBurst hr
    simp [buildRateLimiters, he, hr, key]
  · intro cfg he hr
    have key := derivedBurst_eq cfg.rateLimitPerTenantRPS cfg.rateLimitPerTenantBurst hr
    simp [buildRateLimiters, newPerTenantLimiter, he, hr, key]
  · intro st load bw st2 ev c hr hl
    unfold reload at hr
    rw [hl] at hr
    split at hr
    · rename_i heq
      exact Except.noConfusion heq
    · rename_i newCfg heq
      obtain rfl : c = newCfg := by injection heq
      split at hr
      · split at hr
        · simp at hr
        · simp only [Prod.mk.injEq] at hr
          obtain ⟨h1, -, -⟩ := hr
          rw [← h1]
      · simp only [Prod.mk.injEq] at hr
        obtain ⟨h1, -, -⟩ := hr
        rw [← h1]

/-- A configuration with rate limiting enabled: global bucket 2.5 rps with no
configured burst (so the burst is derived), per-tenant bucket 4 rps with a
configured burst of 9. -/
def cfgRL : Config :=
  { cfg0 with rateLimitEnabled := true
              rateLimitGlobalRPS := mkRat 5 2
              rateLimitGlobalBurst := 0
              rateLimitPerTenantRPS := 4
              rateLimitPerTenantBurst := 9 }

/-- Claim C8 witness: the theorem applied at the concrete configuration, the
derived burst for 2.5 rps being max(1, floor(5)) = 5 and the configured
per-tenant burst 9 passing through, over a fresh empty tenant map. -/
theorem limiter_burst_derivation_witness :
    (buildRateLimiters cfgRL).globalLimiter = some { rps := mkRat 5 2, burst := 5 }
    ∧ (buildRateLimiters cfgRL).tenantLimiters = some { limiters := [], rps := 4, burst := 9 } := by
  constructor
  · have h := limiter_burst_derivation.1 cfgRL rfl (by decide)
    have h5 : (cfgRL.rateLimitGlobalRPS * 2).floor = 5 := by
      show (mkRat 5 2 * (2 : ℚ)).floor = 5
      rw [Rat.mul_def]
      decide
    rw [h, h5]
    decide
  · have h := limiter_burst_derivation.2.1 cfgRL rfl (by decide)
    rw [h]
    decide

/-! ### Claim C9: the configz view -/

/-- Claim C9 counterexample. Two configurations differing only in the startup
probe toggle produce identical runtime views, so GET configz does not echo
every non-password field: the four probe settings are omitted as well. -/
theorem configz_probe_counterexample :
    runtimeView cfg0 = runtimeView { cfg0 with kafkaProbeEnabled := false }
    ∧ cfg0.kafkaProbeEnabled ≠ ({ cfg0 with kafkaProbeEnabled := false } : Config).kafkaProbeEnabled := by
  constructor
  · rfl
  · decide

/-- Claim C9 as amended. The configz view is independent of the SASL password
and of the four startup-probe settings (none of them is echoed), and every
other configuration field is echoed: two configurations with the same view
agree on all remaining fields, the two durations compared through their
rendered string. -/
theorem configz_redaction :
    (∀ (c : Config) (p : String), runtimeView { c with kafkaSASLPassword := p } = runtimeView c)
    ∧ (∀ (c : Config) (pe pr : Bool) (pt : Int) (pw : Bool),
        runtimeView { c with kafkaProbeEnabled := pe, kafkaProbeRequired := pr,
                             kafkaProbeTimeout := pt, kafkaProbeWrite := pw } = runtimeView c)
    ∧ (∀ c c2 : Config, runtimeView c = runtimeView c2 →
        c.kafkaBrokers = c2.kafkaBrokers
        ∧ c.kafkaTopic = c2.kafkaTopic
        ∧ c.kafkaRequiredAcks = c2.kafkaRequiredAcks
        ∧ c.kafkaBalancer = c2.kafkaBalancer
        ∧ durationString c.kafkaWriteTimeout = durationString c2.kafkaWriteTimeout
        ∧ c.kafkaSASLEnabled = c2.kafkaSASLEnabled
        ∧ c.kafkaSASLMechanism = c2.kafkaSASLMechanism
        ∧ c.kafkaSASLUsername = c2.kafkaSASLUsername
        ∧ c.kafkaTLSEnabled = c2.kafkaTLSEnabled
        ∧ c.kafkaTLSInsecureSkipVerify = c2.kafkaTLSInsecureSkipVerify
        ∧ c.kafkaTLSCAFile = c2.kafkaTLSCAFile
        ∧ c.maxBodyBytes = c2.maxBodyBytes
        ∧ c.allowEmptyTenant = c2.allowEmptyTenant
        ∧ c.defaultTenant = c2.defaultTenant
        ∧ c.metricsEnableTenantLabel = c2.metricsEnableTenantLabel
        ∧ c.healthErrorRateThreshold = c2.healthErrorRateThreshold
        ∧ c.healthConsecutiveErrorThreshold = c2.healthConsecutiveErrorThreshold
        ∧ durationString c.healthEvalPeriod = durationString c2.healthEvalPeriod
        ∧ c.slaGaugeEnable = c2.slaGaugeEnable
        ∧ c.rateLimitEnabled = c2.rateLimitEnabled
        ∧ c.rateLimitGlobalRPS = c2.rateLimitGlobalRPS
        ∧ c.rateLimitGlobalBurst = c2.rateLimitGlobalBurst
        ∧ c.rateLimitPerTenantRPS = c2.rateLimitPerTenantRPS
        ∧ c.rateLimitPerTenantBurst = c2.rateLimitPerTenantBurst
        ∧ c.logLevel = c2.logLevel
        ∧ c.quiet = c2.quiet
        ∧ c.port = c2.port) := by
  refine ⟨fun c p => rfl, fun c pe pr pt pw => rfl, ?_⟩
  intro c c2 h
  exact ⟨congrArg RuntimeView.kafkaBrokers h, congrArg RuntimeView.kafkaTopic h,
    congrArg RuntimeView.kafkaRequiredAcks h, congrArg RuntimeView.kafkaBalancer h,
    congrArg RuntimeView.kafkaWriteTimeout h, congrArg RuntimeView.kafkaSASLEnabled h,
    congrArg RuntimeView.kafkaSASLMechanism h, congrArg RuntimeView.kafkaSASLUsername h,
    congrArg RuntimeView.kafkaTLSEnabled h, congrArg RuntimeView.kafkaTLSInsecureSkipVerify h,
    congrArg RuntimeView.kafkaTLSCAFile h, congrArg RuntimeView.maxBodyBytes h,
    congrArg RuntimeView.allowEmptyTenant h, congrArg RuntimeView.defaultTenant h,
    congrArg RuntimeView.metricsEnableTenantLabel h, congrArg RuntimeView.healthErrorRateThreshold h,
    congrArg RuntimeView.healthConsecutiveErrorThreshold h, congrArg RuntimeView.healthEvalPeriod h,
    congrArg RuntimeView.slaGaugeEnable h, congrArg RuntimeView.rateLimitEnabled h,
    congrArg RuntimeView.rateLimitGlobalRPS h, congrArg RuntimeView.rateLimitGlobalBurst h,
    congrArg RuntimeView.rateLimitPerTenantRPS h, congrArg RuntimeView.rateLimitPerTenantBurst h,
    congrArg RuntimeView.logLevel h, congrArg RuntimeView.quiet h, congrArg RuntimeView.port h⟩

/-- Claim C9 witness: the amended theorem applied at concrete configurations,
redacting a concrete password and determining a field from equal views. -/
theorem configz_redaction_witness :
    runtimeView { cfg0 with kafkaSASLPassword := "hunter2" } = runtimeView cfg0
    ∧ cfg0.kafkaTopic = cfg0.kafkaTopic :=
  ⟨configz_redaction.1 cfg0 ("hunter2"), (configz_redaction.2.2 cfg0 cfg0 rfl).2.1⟩

/-! ### Claim C10: rps = 0 means unlimited -/

/-- With no global bucket the handler can never reject at the global scope. -/
theorem handlePush_no_global_reject (cfg : Config) (lims : Limiters) (k : Int) (env : PushEnv)
    (hg : lims.globalLimiter = none) :
    (handlePush cfg lims k env).rateLimitedScope ≠ some ("global") := by
  unfold handlePush
  repeat' split
  all_goals simp_all

/-- With no per-tenant map the handler can never reject at the tenant scope. -/
theorem handlePush_no_tenant_reject (cfg : Config) (lims : Limiters) (k : Int) (env : PushEnv)
    (ht : lims.tenantLimiters = none) :
    (handlePush cfg lims k env).rateLimitedScope ≠ some ("tenant") := by
  unfold handlePush
  repeat' split
  all_goals simp_all

/-- Claim C10. With rate limiting enabled and rps = 0 at a scope, no bucket is
built for that scope, and consequently no request is ever rejected at that
admission stage: rps = 0 means unlimited, not reject-all. -/
theorem zero_rps_unlimited :
    (∀ cfg : Config, cfg.rateLimitEnabled = true → cfg.rateLimitGlobalRPS = 0 →
      (buildRateLimiters cfg).globalLimiter = none)
    ∧ (∀ cfg : Config, cfg.rateLimitEnabled = true → cfg.rateLimitPerTenantRPS = 0 →
      (buildRateLimiters cfg).tenantLimiters = none)
    ∧ (∀ (cfg : Config) (k : Int) (env : PushEnv), cfg.rateLimitGlobalRPS = 0 →
      (handlePush cfg (buildRateLimiters cfg) k env).rateLimitedScope ≠ some ("global"))
    ∧ (∀ (cfg : Config) (k : Int) (env : PushEnv), cfg.rateLimitPerTenantRPS = 0 →
      (handlePush cfg (buildRateLimiters cfg) k env).rateLimitedScope ≠ some ("tenant")) := by
  have hglobal : ∀ cfg : Config, cfg.rateLimitGlobalRPS = 0 →
      (buildRateLimiters cfg).globalLimiter = none := by
    intro cfg h0
    unfold buildRateLimiters
    by_cases he : cfg.rateLimitEnabled <;> simp [he, h0]
  have htenant : ∀ cfg : Config, cfg.rateLimitPerTenantRPS = 0 →
      (buildRateLimiters cfg).tenantLimiters = none := by
    intro cfg h0
    unfold buildRateLimiters
    by_cases he : cfg.rateLimitEnabled <;> simp [he, h0]
  refine ⟨fun cfg _ h0 => hglobal cfg h0, fun cfg _ h0 => htenant cfg h0, ?_, ?_⟩
  · intro cfg k env h0
    exact handlePush_no_global_reject cfg (buildRateLimiters cfg) k env (hglobal cfg h0)
  · intro cfg k env h0
    exact handlePush_no_tenant_reject cfg (buildRateLimiters cfg) k env (htenant cfg h0)

/-- The baseline configuration with rate limiting enabled while both rps
values stay 0. -/
def cfgRL0 : Config := { cfg0 with rateLimitEnabled := true }

/-- Claim C10 witness: the theorem applied at a concrete enabled configuration
with rps = 0 at both scopes and a concrete request. -/
theorem zero_rps_unlimited_witness :
    (buildRateLimiters cfgRL0).globalLimiter = none
    ∧ (buildRateLimiters cfgRL0).tenantLimiters = none
    ∧ (handlePush cfgRL0 (buildRateLimiters cfgRL0) 0 envGet).rateLimitedScope ≠ some ("global")
    ∧ (handlePush cfgRL0 (buildRateLimiters cfgRL0) 0 envGet).rateLimitedScope ≠ some ("tenant") :=
  ⟨zero_rps_unlimited.1 cfgRL0 rfl rfl, zero_rps_unlimited.2.1 cfgRL0 rfl rfl,
    zero_rps_unlimited.2.2.1 cfgRL0 0 envGet rfl, zero_rps_unlimited.2.2.2 cfgRL0 0 envGet rfl⟩
